import Mathlib

/-
Verification of the extraction engine of tap-zendesk (singer-sdk variant).

The definitions below are a shallow embedding of `src/tap_zendesk/client.py`
(`ZendeskStream.parse_response`, `ZendeskStream._request`,
`ZendeskStream.is_end_of_stream`, `IncrementalZendeskStream.get_url_params`,
`IncrementalZendeskStream.get_start_time`) together with the external
collaborators those methods call (Python's `datetime.fromisoformat` /
`datetime.timestamp`, `dict.get` truthiness, the jsonpath record selector,
and singer-sdk's `validate_response`).  JSON payloads are modelled by the
inductive `JsonValue`; machine time is modelled by `Int` (epoch microseconds
or seconds) and `ℚ` (wall-clock seconds for the fixed-interval rate gate).
-/

/-- A JSON value as produced by `response.json()`.  Numbers are restricted to
integers: no stream in this repository inspects a fractional numeric field. -/
inductive JsonValue where
  | null
  | bool (b : Bool)
  | num (n : Int)
  | str (s : String)
  | arr (xs : List JsonValue)
  | obj (fields : List (String × JsonValue))

/-- Association-list lookup: Python's `dict.get(key)` for the JSON objects the
tap reads (keys are unique in a decoded JSON object, so first match suffices). -/
def lookupField {α : Type} : List (String × α) → String → Option α
  | [], _ => none
  | (k, v) :: rest, key => if k = key then some v else lookupField rest key

/-- Python truthiness of a string (`if s:`): nonempty. -/
def strTruthy (s : String) : Bool := !s.toList.isEmpty

/-- Python truthiness of a JSON value: `None`, `False`, `0`, `""`, `[]` and
`{}` are falsy, everything else is truthy. -/
def pyTruthy : JsonValue → Bool
  | .null => false
  | .bool b => b
  | .num n => n != 0
  | .str s => strTruthy s
  | .arr xs => !xs.isEmpty
  | .obj fs => !fs.isEmpty

/-- The result of Python's `datetime.fromisoformat`: a calendar datetime with
microseconds and an optional UTC offset in minutes (`none` = naive). -/
structure PyDateTime where
  year : Int
  month : Nat
  day : Nat
  hour : Nat
  minute : Nat
  second : Nat
  micro : Nat
  off : Option Int
deriving DecidableEq, Repr

def digitVal (c : Char) : Option Nat :=
  if c.isDigit then some (c.toNat - 48) else none

def take2 : List Char → Option (Nat × List Char)
  | a :: b :: rest => do
      let x ← digitVal a
      let y ← digitVal b
      pure (10 * x + y, rest)
  | _ => none

def take4 : List Char → Option (Nat × List Char)
  | a :: b :: c :: d :: rest => do
      let x ← digitVal a
      let y ← digitVal b
      let z ← digitVal c
      let w ← digitVal d
      pure (1000 * x + 100 * y + 10 * z + w, rest)
  | _ => none

def expect (c : Char) : List Char → Option (List Char)
  | x :: rest => if x = c then some rest else none
  | [] => none

/-- Greedily take leading decimal digits. -/
def takeDigits : List Char → List Nat × List Char
  | [] => ([], [])
  | c :: rest =>
    match digitVal c with
    | some d =>
      let (ds, r) := takeDigits rest
      (d :: ds, r)
    | none => ([], c :: rest)

/-- A fractional-second field of 1 to 6 digits, scaled to microseconds. -/
def microOfFrac (ds : List Nat) : Option Nat :=
  if ds.isEmpty || decide (6 < ds.length) then none
  else some (ds.foldl (fun acc d => 10 * acc + d) 0 * 10 ^ (6 - ds.length))

/-- UTC-offset suffix of an ISO-8601 string: empty (naive), `Z`, or
`±HH:MM`; the whole remaining input must be consumed.  Returns the offset in
minutes. -/
def parseOffset : List Char → Option (Option Int)
  | [] => some none
  | ['Z'] => some (some 0)
  | c :: rest =>
    if c = '+' || c = '-' then
      match take2 rest with
      | some (oh, rest2) =>
        match rest2 with
        | ':' :: rest3 =>
          match take2 rest3 with
          | some (om, []) =>
            if oh ≤ 23 && om ≤ 59 then
              some (some ((if c = '-' then (-1 : Int) else 1) * ((oh : Int) * 60 + om)))
            else none
          | _ => none
        | _ => none
      | none => none
    else none

/-- Time-of-day part `HH:MM[:SS[.ffffff]]` plus the offset suffix. -/
def parseTime (cs : List Char) : Option (Nat × Nat × Nat × Nat × Option Int) := do
  let (h, cs) ← take2 cs
  let cs ← expect ':' cs
  let (mi, cs) ← take2 cs
  let (s, micro, off) ←
    match cs with
    | ':' :: cs2 => do
        let (s, cs3) ← take2 cs2
        match cs3 with
        | '.' :: cs4 =>
            let (ds, cs5) := takeDigits cs4
            let micro ← microOfFrac ds
            let off ← parseOffset cs5
            pure (s, micro, off)
        | _ => do
            let off ← parseOffset cs3
            pure (s, 0, off)
    | _ => do
        let off ← parseOffset cs
        pure ((0 : Nat), (0 : Nat), off)
  if h ≤ 23 && mi ≤ 59 && s ≤ 59 then pure (h, mi, s, micro, off) else none

def isLeap (y : Int) : Bool := (y % 4 = 0 && y % 100 != 0) || y % 400 = 0

def daysInMonth (y : Int) (m : Nat) : Nat :=
  if m = 2 then (if isLeap y then 29 else 28)
  else if m = 4 || m = 6 || m = 9 || m = 11 then 30
  else 31

/-- Python's `datetime.fromisoformat` on the grammar this tap feeds it:
`YYYY-MM-DD[{T or space}HH:MM[:SS[.ffffff]]][Z or ±HH:MM]`, with calendar
validation.  `none` models the `ValueError` Python raises on any other input. -/
def fromisoformat (str : String) : Option PyDateTime := do
  let cs := str.toList
  let (y, cs) ← take4 cs
  let cs ← expect '-' cs
  let (mo, cs) ← take2 cs
  let cs ← expect '-' cs
  let (d, cs) ← take2 cs
  guard (1 ≤ y ∧ 1 ≤ mo ∧ mo ≤ 12 ∧ 1 ≤ d ∧ d ≤ daysInMonth (y : Int) mo)
  match cs with
  | [] => pure ⟨(y : Int), mo, d, 0, 0, 0, 0, none⟩
  | sep :: cs2 =>
    if sep = 'T' || sep = ' ' then do
      let (h, mi, s, micro, off) ← parseTime cs2
      pure ⟨(y : Int), mo, d, h, mi, s, micro, off⟩
    else none

/-- Days since 1970-01-01 of a proleptic-Gregorian civil date
(floored-division form of the standard civil-from-days inverse). -/
def daysFromCivil (y : Int) (m d : Nat) : Int :=
  let y2 : Int := if m ≤ 2 then y - 1 else y
  let era : Int := Int.fdiv y2 400
  let yoe : Int := y2 - era * 400
  let mp : Int := if 2 < m then (m : Int) - 3 else (m : Int) + 9
  let doy : Int := Int.fdiv (153 * mp + 2) 5 + (d : Int) - 1
  let doe : Int := yoe * 365 + Int.fdiv yoe 4 - Int.fdiv yoe 100 + doy
  era * 146097 + doe - 719468

/-- Epoch seconds of a datetime interpreted at a given UTC offset (minutes). -/
def epochOfDT (dt : PyDateTime) (offMinutes : Int) : Int :=
  daysFromCivil dt.year dt.month dt.day * 86400
    + (dt.hour : Int) * 3600 + (dt.minute : Int) * 60 + (dt.second : Int)
    - offMinutes * 60

/-- The comparison key of an offset-aware datetime, in epoch microseconds; a
naive datetime is first tagged UTC, modelling the
`record_date.replace(tzinfo=timezone.utc)` normalization in `parse_response`. -/
def awareKey (dt : PyDateTime) : Int :=
  epochOfDT dt (dt.off.getD 0) * 1000000 + (dt.micro : Int)

/-- `int(dt.timestamp())` as used by `get_start_time`: a naive datetime is
interpreted at the process-local UTC offset (minutes), and `int` truncates the
fractional seconds toward zero. -/
def pyIntTimestamp (dt : PyDateTime) (localOffMinutes : Int) : Int :=
  let sec := epochOfDT dt (dt.off.getD localOffMinutes)
  if 0 ≤ sec || dt.micro = 0 then sec else sec + 1

/-- A Python exception class distinguished by the embedded code paths. -/
inductive PyErr where
  | valueError
  | typeError
  | attributeError
deriving DecidableEq, Repr

/-- An HTTP response body as `parse_response` observes it through
`response.content` and `response.json()`: empty content, non-empty content
that fails JSON decoding, or a decoded JSON document. -/
inductive Body where
  | empty
  | invalid
  | json (v : JsonValue)

/-- How one `parse_response` generator run ends, paired with the records it
yielded: the three normal `return` paths (empty body, JSON decode failure,
records exhausted), the early `return` on the end-date bound, or a raised
exception. -/
inductive PageExit where
  | emptyBody
  | badJson
  | exhausted
  | endBound
  | raised (e : PyErr)
deriving DecidableEq, Repr

def isRaised : PageExit → Bool
  | .raised _ => true
  | _ => false

/-- `record.get(replication_key)` inside `parse_response`: the record must be
a dict (anything else raises `AttributeError`); `self.replication_key` may be
`None`, and `dict.get(None)` on a JSON-decoded dict is `None`. -/
def recGet (r : JsonValue) (rk : Option String) : Except PyErr (Option JsonValue) :=
  match r with
  | .obj fs =>
    .ok (match rk with
         | none => none
         | some k => lookupField fs k)
  | _ => .error .attributeError

/-- What one iteration of the `parse_response` record loop decides. -/
inductive StepResult where
  | skip
  | keep
  | stop
  | raise (e : PyErr)
deriving DecidableEq, Repr

/-- One iteration of the record loop of `ZendeskStream.parse_response`
(client.py lines 112-127): drop falsy records; fetch the replication-key
value; a falsy or missing value passes the record through; a truthy value
must be a string (`fromisoformat` raises `TypeError` otherwise) that parses
(`ValueError` otherwise); with an end date configured, a record date strictly
beyond it stops the whole generator, otherwise the record is yielded. -/
def recordStep (endKey : Option Int) (rk : Option String) (r : JsonValue) : StepResult :=
  if pyTruthy r then
    match recGet r rk with
    | .error e => .raise e
    | .ok none => .keep
    | .ok (some v) =>
      if pyTruthy v then
        match v with
        | .str s =>
          match fromisoformat s with
          | none => .raise .valueError
          | some dt =>
            match endKey with
            | none => .keep
            | some ek => if ek < awareKey dt then .stop else .keep
        | _ => .raise .typeError
      else .keep
  else .skip

/-- The record loop of `parse_response`, folded over the page's records:
returns the yielded records in order and how the loop ended. -/
def processRecords (endKey : Option Int) (rk : Option String) :
    List JsonValue → List JsonValue × PageExit
  | [] => ([], .exhausted)
  | r :: rest =>
    match recordStep endKey rk r with
    | .skip => processRecords endKey rk rest
    | .keep =>
      let next := processRecords endKey rk rest
      (r :: next.1, next.2)
    | .stop => ([], .endBound)
    | .raise e => ([], .raised e)

/-- `extract_jsonpath(self.records_jsonpath, input=response_json)` for the
path shape every stream in streams.py uses, `$.field[*]`: the elements of the
array stored under `field`, and nothing when the field is absent or not an
array. -/
def pageRecords (recordsField : String) (v : JsonValue) : List JsonValue :=
  match v with
  | .obj fs =>
    match lookupField fs recordsField with
    | some (.arr xs) => xs
    | _ => []
  | _ => []

/-- `ZendeskStream.parse_response` (client.py lines 91-127).  Empty content
and undecodable JSON are logged and end the generator with no records; the
configured `end_date` (when truthy) is parsed with `fromisoformat` (raising on
a bad value) and normalized to UTC when naive; then the record loop runs. -/
def parse_response (endDateStr : Option String) (rk : Option String)
    (recordsField : String) (body : Body) : List JsonValue × PageExit :=
  match body with
  | .empty => ([], .emptyBody)
  | .invalid => ([], .badJson)
  | .json v =>
    match endDateStr with
    | none => processRecords none rk (pageRecords recordsField v)
    | some s =>
      if strTruthy s then
        match fromisoformat s with
        | none => ([], .raised .valueError)
        | some dt => processRecords (some (awareKey dt)) rk (pageRecords recordsField v)
      else processRecords none rk (pageRecords recordsField v)

/-- Modelled from the spec: the per-stream request/parse/advance loop of the
ExtractionEngine and Paginator (spec sections 4.3 and 4.5).  The loop that drives
`parse_response` page by page lives in the singer-sdk dependency and is not
under src/; per the spec a window-exceeded truncation is terminal for the
stream and a raised error aborts it, while every other page outcome advances
to the next page.  The input list is the sequence of pages the API would
serve; the result is the yielded records and how many pages were requested. -/
def extract_pages (endDateStr rk : Option String) (recordsField : String) :
    List Body → List JsonValue × Nat
  | [] => ([], 0)
  | b :: rest =>
    let pr := parse_response endDateStr rk recordsField b
    match pr.2 with
    | .endBound => (pr.1, 1)
    | .raised _ => (pr.1, 1)
    | _ =>
      let next := extract_pages endDateStr rk recordsField rest
      (pr.1 ++ next.1, next.2 + 1)

/-- The replication-key timestamp a record carries, when it is a dict whose
replication-key field holds a string that `fromisoformat` accepts. -/
def dateKeyOf (rk : Option String) (r : JsonValue) : Option Int :=
  match r with
  | .obj fs =>
    match rk with
    | some k =>
      match lookupField fs k with
      | some (.str s) => (fromisoformat s).map awareKey
      | _ => none
    | none => none
  | _ => none

/-- `dateKeyOf` with a default, for stating sortedness. -/
def keyD (rk : Option String) (r : JsonValue) : Int := (dateKeyOf rk r).getD 0

/-- The page's records are in ascending order of `f` (adjacent pairs). -/
def ascendingBy (f : JsonValue → Int) : List JsonValue → Bool
  | [] => true
  | [_] => true
  | a :: b :: rest => decide (f a ≤ f b) && ascendingBy f (b :: rest)

/-- How singer-sdk classifies a non-2xx response. -/
inductive ApiError where
  | fatal
  | retriable
deriving DecidableEq, Repr

/-- `singer_sdk.RESTStream.validate_response`, inherited unchanged by
`ZendeskStream` (external dependency, summarized): 429 and 5xx raise
`RetriableAPIError`, every other 4xx raises `FatalAPIError`, anything else
passes. -/
def validate_response (status : Nat) : Except ApiError Unit :=
  if status = 429 || decide (500 ≤ status) then .error .retriable
  else if decide (400 ≤ status) && decide (status < 500) then .error .fatal
  else .ok ()

/-- What `ZendeskStream._request` does with a response of a given status. -/
inductive RequestOutcome where
  | respNone
  | resp (status : Nat)
  | fatalError
  | retriableError
deriving DecidableEq, Repr

/-- The status handling of `ZendeskStream._request` (client.py lines 167-174):
a 404 is logged as a warning and `None` is returned in place of the response,
skipping `validate_response`; every other status goes through
`validate_response` and is returned when it passes. -/
def request_outcome (status : Nat) : RequestOutcome :=
  if status = 404 then .respNone
  else
    match validate_response status with
    | .error .fatal => .fatalError
    | .error .retriable => .retriableError
    | .ok _ => .resp status

/-- Whether singer-sdk's request decorator retries the call: only a raised
`RetriableAPIError` is retried (external dependency, summarized). -/
def is_retried : RequestOutcome → Bool
  | .retriableError => true
  | _ => false

/-- The fixed-interval rate gate of `ZendeskStream._request` (client.py lines
143-148): seconds slept before sending, given the stored last-request time and
the current wall clock, both in seconds. -/
def rate_limit_sleep (lastRequestTime now : ℚ) : ℚ :=
  let timeSinceLastRequest := now - lastRequestTime
  if timeSinceLastRequest < 24 / 100 then 24 / 100 - timeSinceLastRequest else 0

/-- The wall-clock moment the gated request is actually sent. -/
def send_moment (lastRequestTime now : ℚ) : ℚ :=
  now + rate_limit_sleep lastRequestTime now

/-- `IncrementalZendeskStream.get_start_time` (client.py lines 218-227): a
truthy starting replication-key value is parsed with `fromisoformat` (raising
`ValueError` on a bad value) and converted with `int(record_date.timestamp())`;
otherwise the start is the current time minus 86400 seconds. -/
def get_start_time (rkv : Option String) (now localOffMinutes : Int) :
    Except PyErr Int :=
  match rkv with
  | some s =>
    if strTruthy s then
      match fromisoformat s with
      | none => .error .valueError
      | some dt => .ok (pyIntTimestamp dt localOffMinutes)
    else .ok (now - 86400)
  | none => .ok (now - 86400)

/-- A URL query-parameter value. -/
inductive ParamValue where
  | num (n : Int)
  | str (s : String)
deriving DecidableEq, Repr

/-- Python truthiness of an optional string token (`if next_page_token:`). -/
def tokenTruthy : Option String → Bool
  | none => false
  | some s => strTruthy s

/-- `IncrementalZendeskStream.get_url_params` (client.py lines 204-216):
`{"per_page": 1000}` plus `cursor` when a truthy next-page token exists, else
`start_time` from `get_start_time` (whose `ValueError` propagates). -/
def inc_get_url_params (nextPageToken : Option String) (rkv : Option String)
    (now localOffMinutes : Int) : Except PyErr (List (String × ParamValue)) :=
  if tokenTruthy nextPageToken then
    .ok [("per_page", .num 1000), ("cursor", .str (nextPageToken.getD ""))]
  else
    match get_start_time rkv now localOffMinutes with
    | .error e => .error e
    | .ok t => .ok [("per_page", .num 1000), ("start_time", .num t)]

/-- `ZendeskStream.is_end_of_stream` (client.py lines 176-184), on the fields
of the decoded JSON envelope: when an `end_of_stream` key is present its value
is returned verbatim; otherwise the result is whether
`response.json().get('meta', {}).get('after_cursor')` is falsy (a non-dict
`meta` value would raise `AttributeError` on the inner `get`). -/
def is_end_of_stream (fs : List (String × JsonValue)) : Except PyErr JsonValue :=
  match lookupField fs "end_of_stream" with
  | some v => .ok v
  | none =>
    match (lookupField fs "meta").getD (.obj []) with
    | .obj ms => .ok (.bool (!pyTruthy ((lookupField ms "after_cursor").getD .null)))
    | _ => .error .attributeError

/-- Modelled from the spec: `check_rate_throttling`, the header-driven rate
policy.  The method is exercised by src/tests/test_client.py but its
definition is not under src/.  Per the spec (section 4.1) and the tests: the
remaining-quota header is compared with the configured
`min_remain_rate_limit` floor; at or below the floor the engine sleeps the
advertised reset countdown, defaulting to 60 seconds when the reset header is
absent; above the floor it does not sleep.  Returns the seconds slept. -/
def check_rate_throttling (remaining : Int) (resetSeconds : Option Int)
    (minRemainRateLimit : Int) : Int :=
  if remaining ≤ minRemainRateLimit then resetSeconds.getD 60 else 0

theorem fromisoformat_strTruthy {s : String} {dt : PyDateTime}
    (h : fromisoformat s = some dt) : strTruthy s = true := by
  unfold strTruthy
  cases hcs : s.toList with
  | nil =>
    unfold fromisoformat at h
    rw [hcs] at h
    simp [take4] at h
  | cons c cs => simp

theorem pyTruthy_of_lookup {fs : List (String × JsonValue)} {k : String}
    {v : JsonValue} (h : lookupField fs k = some v) :
    pyTruthy (JsonValue.obj fs) = true := by
  cases fs with
  | nil => simp [lookupField] at h
  | cons p t => simp [pyTruthy, List.isEmpty]

theorem dateKeyOf_inv {rk : String} {r : JsonValue} {k : Int}
    (h : dateKeyOf (some rk) r = some k) :
    ∃ fs s dt, r = JsonValue.obj fs ∧ lookupField fs rk = some (JsonValue.str s) ∧
      fromisoformat s = some dt ∧ k = awareKey dt := by
  cases r with
  | obj fs =>
    cases hlk : lookupField fs rk with
    | none => simp [dateKeyOf, hlk] at h
    | some v =>
      cases v with
      | str s =>
        cases hiso : fromisoformat s with
        | none => simp [dateKeyOf, hlk, hiso] at h
        | some dt =>
          simp [dateKeyOf, hlk, hiso] at h
          exact ⟨fs, s, dt, rfl, hlk, hiso, h.symm⟩
      | null => simp [dateKeyOf, hlk] at h
      | bool b => simp [dateKeyOf, hlk] at h
      | num n => simp [dateKeyOf, hlk] at h
      | arr xs => simp [dateKeyOf, hlk] at h
      | obj fs2 => simp [dateKeyOf, hlk] at h
  | null => simp [dateKeyOf] at h
  | bool b => simp [dateKeyOf] at h
  | num n => simp [dateKeyOf] at h
  | str s => simp [dateKeyOf] at h
  | arr xs => simp [dateKeyOf] at h

theorem recordStep_parseable {T : Int} {rk : String} {r : JsonValue} {k : Int}
    (hk : dateKeyOf (some rk) r = some k) :
    recordStep (some T) (some rk) r
      = if T < k then StepResult.stop else StepResult.keep := by
  obtain ⟨fs, s, dt, rfl, hlk, hiso, rfl⟩ := dateKeyOf_inv hk
  have hs2 : pyTruthy (JsonValue.str s) = true := by
    simp [pyTruthy, fromisoformat_strTruthy hiso]
  simp [recordStep, recGet, pyTruthy_of_lookup hlk, hlk, hiso, hs2]

theorem recordStep_none_ne_stop (ek : Option Int) (r : JsonValue) :
    recordStep ek none r ≠ StepResult.stop := by
  cases r <;> simp [recordStep, recGet] <;> split <;> simp

theorem recordStep_stop_key {ek : Option Int} {rk : Option String} {r : JsonValue}
    (h : recordStep ek rk r = StepResult.stop) :
    ∃ e k, ek = some e ∧ dateKeyOf rk r = some k ∧ e < k := by
  unfold recordStep at h
  split at h
  next hT =>
    split at h
    next e hg => simp at h
    next hg => simp at h
    next v hg =>
      split at h
      next hv =>
        split at h
        next s =>
          split at h
          next hiso => simp at h
          next dt hiso =>
            split at h
            next hek => simp at h
            next ekv hek =>
              split at h
              next hlt =>
                refine ⟨hek, awareKey dt, rfl, ?_, hlt⟩
                cases r with
                | obj fs =>
                  cases rk with
                  | none => simp [recGet] at hg
                  | some key =>
                    simp [recGet] at hg
                    simp [dateKeyOf, hg, hiso]
                | null => simp [recGet] at hg
                | bool b => simp [recGet] at hg
                | num n => simp [recGet] at hg
                | str s2 => simp [recGet] at hg
                | arr xs => simp [recGet] at hg
              next hlt => simp at h
        next hne => simp at h
      next hv => simp at h
  next hT => simp at h

theorem ascendingBy_tail {f : JsonValue → Int} {a : JsonValue} {l : List JsonValue}
    (h : ascendingBy f (a :: l) = true) : ascendingBy f l = true := by
  cases l with
  | nil => rfl
  | cons b t =>
    simp [ascendingBy] at h
    simpa [ascendingBy] using h.2

theorem ascendingBy_head_le {f : JsonValue → Int} {a : JsonValue}
    {l : List JsonValue} (h : ascendingBy f (a :: l) = true) :
    ∀ b ∈ l, f a ≤ f b := by
  induction l generalizing a with
  | nil => intro b hb; cases hb
  | cons c t ih =>
    intro b hb
    have h2 := h
    simp [ascendingBy] at h2
    cases hb with
    | head => exact h2.1
    | tail _ hb2 =>
      have ht : ascendingBy f (c :: t) = true := by
        simpa [ascendingBy] using h2.2
      exact le_trans h2.1 (ih ht b hb2)

theorem processRecords_sorted (T : Int) (rk : String) (recs : List JsonValue)
    (hAll : recs.all (fun r => (dateKeyOf (some rk) r).isSome) = true)
    (hSort : ascendingBy (keyD (some rk)) recs = true) :
    processRecords (some T) (some rk) recs
      = (recs.filter (fun r => decide (keyD (some rk) r ≤ T)),
         if recs.any (fun r => decide (T < keyD (some rk) r)) then PageExit.endBound
         else PageExit.exhausted) := by
  induction recs with
  | nil => rfl
  | cons r rest ih =>
    have hAllr : (dateKeyOf (some rk) r).isSome = true := by
      have := hAll
      simp [List.all_cons] at this
      exact this.1
    have hAllrest : rest.all (fun r => (dateKeyOf (some rk) r).isSome) = true := by
      have := hAll
      simp [List.all_cons] at this
      simpa using this.2
    obtain ⟨k, hk⟩ := Option.isSome_iff_exists.mp hAllr
    have hkey : keyD (some rk) r = k := by simp [keyD, hk]
    have hstep := recordStep_parseable (T := T) hk
    by_cases hlt : T < k
    · rw [if_pos hlt] at hstep
      have hrest_gt : ∀ b ∈ rest, T < keyD (some rk) b := fun b hb =>
        lt_of_lt_of_le (hkey ▸ hlt) (ascendingBy_head_le hSort b hb)
      have hfilter : rest.filter (fun r => decide (keyD (some rk) r ≤ T)) = [] := by
        rw [List.filter_eq_nil_iff]
        intro b hb
        simp [not_le.mpr (hrest_gt b hb)]
      simp [processRecords, hstep, List.filter_cons, List.any_cons,
            hkey, not_le.mpr hlt, hlt, hfilter]
    · rw [if_neg hlt] at hstep
      have hle : k ≤ T := not_lt.mp hlt
      simp [processRecords, hstep, ih hAllrest (ascendingBy_tail hSort),
            List.filter_cons, List.any_cons, hkey, hle, hlt]

/-- C1 counterexample: the claim says an HTTP 404 causes the extraction to
fail with a surfaced fatal error, but `_request` converts a 404 into a
normal return of `None`: no exception is surfaced at all. -/
theorem c1_counterexample :
    request_outcome 404 = RequestOutcome.respNone ∧
    RequestOutcome.respNone ≠ RequestOutcome.fatalError ∧
    RequestOutcome.respNone ≠ RequestOutcome.retriableError := by decide

/-- C1 (amended): an HTTP 400 surfaces a fatal error through
`validate_response` and is not retried; an HTTP 404 is logged as a warning
and `_request` returns `None` in place of the response — also not retried,
and no records can come from it, but `_request` itself surfaces no fatal
error for it. -/
theorem c1_theorem :
    request_outcome 400 = RequestOutcome.fatalError ∧
    is_retried (request_outcome 400) = false ∧
    request_outcome 404 = RequestOutcome.respNone ∧
    is_retried (request_outcome 404) = false := by decide

/-- C3 counterexample: on an empty body `parse_response` raises nothing — it
returns normally with zero records — and the pagination loop goes on to
request and yield the next page. -/
theorem c3_counterexample :
    parse_response none none "tickets" Body.empty = ([], PageExit.emptyBody) ∧
    isRaised PageExit.emptyBody = false ∧
    extract_pages none none "tickets"
        [Body.empty,
         Body.json (JsonValue.obj
           [("tickets", JsonValue.arr [JsonValue.obj [("id", JsonValue.num 1)]])])]
      = ([JsonValue.obj [("id", JsonValue.num 1)]], 2) :=
  ⟨rfl, rfl, rfl⟩

/-- C3 (amended): an empty response body is not an error: `parse_response`
logs a warning and ends the generator with zero records and no exception,
and pagination proceeds to the next page. -/
theorem c3_theorem (endDateStr rk : Option String) (f : String) (rest : List Body) :
    parse_response endDateStr rk f Body.empty = ([], PageExit.emptyBody) ∧
    isRaised (parse_response endDateStr rk f Body.empty).2 = false ∧
    extract_pages endDateStr rk f (Body.empty :: rest)
      = ((extract_pages endDateStr rk f rest).1,
         (extract_pages endDateStr rk f rest).2 + 1) := by
  refine ⟨rfl, rfl, ?_⟩
  simp [extract_pages, parse_response]

/-- C4: a non-empty body that fails JSON decoding does not raise:
`parse_response` logs and yields zero records for the page, and pagination
proceeds to the next page instead of aborting. -/
theorem c4_theorem (endDateStr rk : Option String) (f : String) (rest : List Body) :
    parse_response endDateStr rk f Body.invalid = ([], PageExit.badJson) ∧
    isRaised (parse_response endDateStr rk f Body.invalid).2 = false ∧
    extract_pages endDateStr rk f (Body.invalid :: rest)
      = ((extract_pages endDateStr rk f rest).1,
         (extract_pages endDateStr rk f rest).2 + 1) := by
  refine ⟨rfl, rfl, ?_⟩
  simp [extract_pages, parse_response]

/-- C5: under the header-driven rate policy, a remaining quota at or below
the configured `min_remain_rate_limit` floor makes the engine sleep the
advertised reset countdown — 60 seconds when the reset header is absent —
and a remaining quota above the floor sleeps 0. -/
theorem c5_theorem (remaining : Int) (resetSeconds : Option Int) (floorLimit : Int) :
    (remaining ≤ floorLimit →
      check_rate_throttling remaining resetSeconds floorLimit = resetSeconds.getD 60) ∧
    (floorLimit < remaining →
      check_rate_throttling remaining resetSeconds floorLimit = 0) := by
  constructor
  · intro h; simp [check_rate_throttling, h]
  · intro h; simp [check_rate_throttling, not_le.mpr h]

/-- C5 witness: the fixture of src/tests/test_client.py — floor 10, remaining
5, reset 30 sleeps 30; reset absent sleeps 60; remaining 20 sleeps 0. -/
theorem c5_witness :
    check_rate_throttling 5 (some 30) 10 = 30 ∧
    check_rate_throttling 5 none 10 = 60 ∧
    check_rate_throttling 20 (some 30) 10 = 0 :=
  ⟨(c5_theorem 5 (some 30) 10).1 (by decide),
   (c5_theorem 5 none 10).1 (by decide),
   (c5_theorem 20 (some 30) 10).2 (by decide)⟩

/-- C6 counterexample: an envelope with an explicit `end_of_stream: false`
flag and no usable token is not treated as end-of-stream:
`is_end_of_stream` returns the flag verbatim, a falsy value. -/
theorem c6_counterexample :
    is_end_of_stream [("end_of_stream", JsonValue.bool false)]
      = Except.ok (JsonValue.bool false) ∧
    pyTruthy (JsonValue.bool false) = false :=
  ⟨rfl, rfl⟩

/-- C6 (amended): when the envelope carries an `end_of_stream` key,
`is_end_of_stream` returns its value verbatim — so `end_of_stream: false`
with no usable token reads as not-ended and pagination would continue; only
when the key is absent does a missing or falsy `meta.after_cursor` mean
end-of-stream. -/
theorem c6_theorem (fs : List (String × JsonValue)) :
    (∀ v, lookupField fs "end_of_stream" = some v →
      is_end_of_stream fs = Except.ok v) ∧
    (∀ ms, lookupField fs "end_of_stream" = none →
      (lookupField fs "meta").getD (JsonValue.obj []) = JsonValue.obj ms →
      is_end_of_stream fs = Except.ok (JsonValue.bool
        (!pyTruthy ((lookupField ms "after_cursor").getD JsonValue.null)))) := by
  constructor
  · intro v hv
    simp [is_end_of_stream, hv]
  · intro ms h0 hm
    simp [is_end_of_stream, h0, hm]

/-- C6 witness: a present flag is returned verbatim; with the flag absent, a
truthy `meta.after_cursor` reads as not-ended. -/
theorem c6_witness :
    is_end_of_stream [("end_of_stream", JsonValue.bool true)]
      = Except.ok (JsonValue.bool true) ∧
    is_end_of_stream [("meta", JsonValue.obj [("after_cursor", JsonValue.str "tok")])]
      = Except.ok (JsonValue.bool false) := by
  constructor
  · exact (c6_theorem [("end_of_stream", JsonValue.bool true)]).1 (JsonValue.bool true) rfl
  · exact ((c6_theorem [("meta", JsonValue.obj [("after_cursor", JsonValue.str "tok")])]).2
      [("after_cursor", JsonValue.str "tok")] rfl rfl).trans rfl

/-- C7: on an incremental stream's first request, a truthy starting
replication-key value is parsed as an ISO-8601 timestamp and converted to
epoch seconds; with no starting value the start time is now minus 86400. -/
theorem c7_theorem (rkv : Option String) (now localOffMinutes : Int) :
    (∀ s dt, rkv = some s → fromisoformat s = some dt →
      get_start_time rkv now localOffMinutes
        = Except.ok (pyIntTimestamp dt localOffMinutes)) ∧
    (rkv = none →
      get_start_time rkv now localOffMinutes = Except.ok (now - 86400)) := by
  constructor
  · rintro s dt rfl hiso
    simp [get_start_time, fromisoformat_strTruthy hiso, hiso]
  · rintro rfl
    rfl

/-- C7 witness: the bookmark 2024-01-02T03:04:05+00:00 becomes epoch second
1704164645; with no bookmark the start is now − 86400. -/
theorem c7_witness :
    get_start_time (some "2024-01-02T03:04:05+00:00") 0 0 = Except.ok 1704164645 ∧
    get_start_time none 100000 0 = Except.ok 13600 := by
  constructor
  · exact ((c7_theorem (some "2024-01-02T03:04:05+00:00") 0 0).1
      "2024-01-02T03:04:05+00:00" ⟨2024, 1, 2, 3, 4, 5, 0, some 0⟩ rfl (by decide)).trans rfl
  · exact ((c7_theorem none 100000 0).2 rfl).trans rfl

/-- C8: under the fixed-interval policy, when less than 0.24 seconds have
elapsed since the last request the gate sleeps exactly the remainder, and in
every case the gated request is sent no less than 0.24 seconds after the
stored last-request time. -/
theorem c8_theorem (lastRequestTime now : ℚ) :
    (now - lastRequestTime < 24 / 100 →
      rate_limit_sleep lastRequestTime now = 24 / 100 - (now - lastRequestTime)) ∧
    24 / 100 ≤ send_moment lastRequestTime now - lastRequestTime := by
  constructor
  · intro h
    simp [rate_limit_sleep, h]
  · unfold send_moment rate_limit_sleep
    by_cases h : now - lastRequestTime < 24 / 100
    · rw [if_pos h]
      linarith
    · rw [if_neg h]
      have h2 := not_lt.mp h
      linarith

/-- C8 witness: 0.1 seconds after the last request the gate sleeps exactly
0.14 seconds, and the send moment is at least 0.24 seconds after it. -/
theorem c8_witness :
    ((1 : ℚ) / 10 - 0 < 24 / 100) ∧
    rate_limit_sleep 0 (1 / 10) = 24 / 100 - ((1 : ℚ) / 10 - 0) ∧
    24 / 100 ≤ send_moment 0 (1 / 10) - 0 :=
  ⟨by norm_num, (c8_theorem 0 (1 / 10)).1 (by norm_num), (c8_theorem 0 (1 / 10)).2⟩

/-- C2: with a configured end bound, a page of records each carrying a
parseable replication-key timestamp, delivered in ascending key order and
crossing the bound, makes the engine yield exactly the records whose
timestamp is at or below the bound and none after, and terminate the whole
stream after that single page — no further page is requested. -/
theorem c2_theorem (endStr : String) (eDt : PyDateTime) (rk f : String)
    (recs : List JsonValue) (rest : List Body)
    (hEnd : fromisoformat endStr = some eDt)
    (hAll : recs.all (fun r => (dateKeyOf (some rk) r).isSome) = true)
    (hSort : ascendingBy (keyD (some rk)) recs = true)
    (hCross : recs.any (fun r => decide (awareKey eDt < keyD (some rk) r)) = true) :
    extract_pages (some endStr) (some rk) f
        (Body.json (JsonValue.obj [(f, JsonValue.arr recs)]) :: rest)
      = (recs.filter (fun r => decide (keyD (some rk) r ≤ awareKey eDt)), 1) := by
  have hpr : parse_response (some endStr) (some rk) f
        (Body.json (JsonValue.obj [(f, JsonValue.arr recs)]))
      = processRecords (some (awareKey eDt)) (some rk) recs := by
    simp [parse_response, fromisoformat_strTruthy hEnd, hEnd, pageRecords, lookupField]
  have hproc := processRecords_sorted (awareKey eDt) rk recs hAll hSort
  rw [hCross, if_pos rfl] at hproc
  simp [extract_pages, hpr, hproc]

/-- C2 witness: end bound 2024-06-01T00:00:00+00:00; page 1 holds a record at
2024-05-01 and one at 2024-07-01, a second page exists; exactly the
2024-05-01 record is yielded and only one page is requested. -/
theorem c2_witness :
    extract_pages (some "2024-06-01T00:00:00+00:00") (some "updated_at") "tickets"
        [Body.json (JsonValue.obj [("tickets", JsonValue.arr
            [JsonValue.obj [("updated_at", JsonValue.str "2024-05-01T00:00:00+00:00"),
                            ("id", JsonValue.num 1)],
             JsonValue.obj [("updated_at", JsonValue.str "2024-07-01T00:00:00+00:00"),
                            ("id", JsonValue.num 2)]])]),
         Body.json (JsonValue.obj [("tickets", JsonValue.arr
            [JsonValue.obj [("updated_at", JsonValue.str "2024-08-01T00:00:00+00:00"),
                            ("id", JsonValue.num 3)]])])]
      = ([JsonValue.obj [("updated_at", JsonValue.str "2024-05-01T00:00:00+00:00"),
                         ("id", JsonValue.num 1)]], 1) := by
  have h := c2_theorem "2024-06-01T00:00:00+00:00" ⟨2024, 6, 1, 0, 0, 0, 0, some 0⟩
      "updated_at" "tickets"
      [JsonValue.obj [("updated_at", JsonValue.str "2024-05-01T00:00:00+00:00"),
                      ("id", JsonValue.num 1)],
       JsonValue.obj [("updated_at", JsonValue.str "2024-07-01T00:00:00+00:00"),
                      ("id", JsonValue.num 2)]]
      [Body.json (JsonValue.obj [("tickets", JsonValue.arr
          [JsonValue.obj [("updated_at", JsonValue.str "2024-08-01T00:00:00+00:00"),
                          ("id", JsonValue.num 3)]])])]
      (by decide) (by decide) (by decide) (by decide)
  exact h.trans rfl

/-- C9 counterexample: an empty record lacks the replication-key field, yet
the record loop drops it instead of yielding it — the claim's blanket "kept
and yielded unchanged" fails on empty records. -/
theorem c9_counterexample :
    (processRecords none (some "updated_at") [JsonValue.obj []]).1 = [] ∧
    ([] : List JsonValue) ≠ [JsonValue.obj []] := by
  refine ⟨rfl, ?_⟩
  intro h
  exact List.noConfusion h

/-- C9 (amended): a non-empty record whose replication-key field is missing,
or holds a falsy value, is kept and yielded unchanged (empty records are
dropped by the separate empty-record check); a stream with no replication
key configured never hits the end-boundary stop; and the early stop only
ever fires when some record carries a parseable replication-key value. -/
theorem c9_theorem :
    (∀ endKey rk r rest, pyTruthy r = true → recGet r rk = Except.ok none →
      processRecords endKey rk (r :: rest)
        = (r :: (processRecords endKey rk rest).1, (processRecords endKey rk rest).2)) ∧
    (∀ endKey rk r rest v, pyTruthy r = true → recGet r rk = Except.ok (some v) →
      pyTruthy v = false →
      processRecords endKey rk (r :: rest)
        = (r :: (processRecords endKey rk rest).1, (processRecords endKey rk rest).2)) ∧
    (∀ endKey recs, (processRecords endKey none recs).2 ≠ PageExit.endBound) ∧
    (∀ endKey rk recs, (processRecords endKey rk recs).2 = PageExit.endBound →
      recs.any (fun r => (dateKeyOf rk r).isSome) = true) := by
  refine ⟨?_, ?_, ?_, ?_⟩
  · intro endKey rk r rest hT hg
    have hstep : recordStep endKey rk r = StepResult.keep := by
      simp [recordStep, hT, hg]
    simp [processRecords, hstep]
  · intro endKey rk r rest v hT hg hv
    have hstep : recordStep endKey rk r = StepResult.keep := by
      simp [recordStep, hT, hg, hv]
    simp [processRecords, hstep]
  · intro endKey recs
    induction recs with
    | nil => simp [processRecords]
    | cons r rest ih =>
      cases hs : recordStep endKey none r with
      | skip => simpa [processRecords, hs] using ih
      | keep => simpa [processRecords, hs] using ih
      | stop => exact absurd hs (recordStep_none_ne_stop endKey r)
      | raise e => simp [processRecords, hs]
  · intro endKey rk recs
    induction recs with
    | nil => intro h; simp [processRecords] at h
    | cons r rest ih =>
      intro h
      cases hs : recordStep endKey rk r with
      | skip =>
        have h2 := ih (by simpa [processRecords, hs] using h)
        simp [List.any_cons, h2]
      | keep =>
        have h2 := ih (by simpa [processRecords, hs] using h)
        simp [List.any_cons, h2]
      | stop =>
        obtain ⟨e2, k2, hek, hdk, hlt⟩ := recordStep_stop_key hs
        simp [List.any_cons, hdk]
      | raise e => simp [processRecords, hs] at h

/-- C9 witness: a record without the field is yielded unchanged; a record
with a falsy field value is yielded unchanged; a stream with no replication
key does not end-stop; a page that did end-stop held a parseable value. -/
theorem c9_witness :
    processRecords none (some "updated_at") [JsonValue.obj [("id", JsonValue.num 1)]]
      = ([JsonValue.obj [("id", JsonValue.num 1)]], PageExit.exhausted) ∧
    processRecords (some 0) (some "updated_at")
        [JsonValue.obj [("updated_at", JsonValue.null), ("id", JsonValue.num 2)]]
      = ([JsonValue.obj [("updated_at", JsonValue.null), ("id", JsonValue.num 2)]],
         PageExit.exhausted) ∧
    (processRecords (some 0) none [JsonValue.obj [("id", JsonValue.num 1)]]).2
      ≠ PageExit.endBound ∧
    [JsonValue.obj [("updated_at", JsonValue.str "2024-07-01T00:00:00+00:00")]].any
        (fun r => (dateKeyOf (some "updated_at") r).isSome) = true := by
  refine ⟨?_, ?_, ?_, ?_⟩
  · exact (c9_theorem.1 none (some "updated_at")
      (JsonValue.obj [("id", JsonValue.num 1)]) [] rfl rfl).trans rfl
  · exact (c9_theorem.2.1 (some 0) (some "updated_at")
      (JsonValue.obj [("updated_at", JsonValue.null), ("id", JsonValue.num 2)]) []
      JsonValue.null rfl rfl rfl).trans rfl
  · exact c9_theorem.2.2.1 (some 0) [JsonValue.obj [("id", JsonValue.num 1)]]
  · exact c9_theorem.2.2.2 (some 0) (some "updated_at")
      [JsonValue.obj [("updated_at", JsonValue.str "2024-07-01T00:00:00+00:00")]] rfl

/-- C10: whenever `IncrementalZendeskStream.get_url_params` returns a
parameter set, it contains `per_page = 1000` and exactly one of `cursor`
(truthy next-page token) or `start_time` (otherwise) — never both, never
neither. -/
theorem c10_theorem (nextPageToken rkv : Option String) (now localOffMinutes : Int)
    (ps : List (String × ParamValue))
    (h : inc_get_url_params nextPageToken rkv now localOffMinutes = Except.ok ps) :
    lookupField ps "per_page" = some (ParamValue.num 1000) ∧
    ((tokenTruthy nextPageToken = true ∧ (lookupField ps "cursor").isSome = true ∧
        lookupField ps "start_time" = none) ∨
     (tokenTruthy nextPageToken = false ∧ lookupField ps "cursor" = none ∧
        (lookupField ps "start_time").isSome = true)) := by
  cases htok : tokenTruthy nextPageToken with
  | true =>
    simp [inc_get_url_params, htok] at h
    subst h
    exact ⟨rfl, Or.inl ⟨rfl, rfl, rfl⟩⟩
  | false =>
    simp [inc_get_url_params, htok] at h
    cases hg : get_start_time rkv now localOffMinutes with
    | error e => simp [hg] at h
    | ok t =>
      rw [hg] at h
      have h2 : Except.ok (ε := PyErr)
          [("per_page", ParamValue.num 1000), ("start_time", ParamValue.num t)]
          = Except.ok ps := h
      cases h2
      exact ⟨rfl, Or.inr ⟨rfl, rfl, rfl⟩⟩

/-- C10 witness: a truthy token yields per_page with cursor and no
start_time; no token yields per_page with start_time and no cursor. -/
theorem c10_witness :
    (lookupField [("per_page", ParamValue.num 1000), ("cursor", ParamValue.str "abc")]
        "per_page" = some (ParamValue.num 1000) ∧
      ((tokenTruthy (some "abc") = true ∧
          (lookupField [("per_page", ParamValue.num 1000),
            ("cursor", ParamValue.str "abc")] "cursor").isSome = true ∧
          lookupField [("per_page", ParamValue.num 1000),
            ("cursor", ParamValue.str "abc")] "start_time" = none) ∨
       (tokenTruthy (some "abc") = false ∧
          lookupField [("per_page", ParamValue.num 1000),
            ("cursor", ParamValue.str "abc")] "cursor" = none ∧
          (lookupField [("per_page", ParamValue.num 1000),
            ("cursor", ParamValue.str "abc")] "start_time").isSome = true))) ∧
    (lookupField [("per_page", ParamValue.num 1000), ("start_time", ParamValue.num 13600)]
        "per_page" = some (ParamValue.num 1000) ∧
      ((tokenTruthy (none : Option String) = true ∧
          (lookupField [("per_page", ParamValue.num 1000),
            ("start_time", ParamValue.num 13600)] "cursor").isSome = true ∧
          lookupField [("per_page", ParamValue.num 1000),
            ("start_time", ParamValue.num 13600)] "start_time" = none) ∨
       (tokenTruthy (none : Option String) = false ∧
          lookupField [("per_page", ParamValue.num 1000),
            ("start_time", ParamValue.num 13600)] "cursor" = none ∧
          (lookupField [("per_page", ParamValue.num 1000),
            ("start_time", ParamValue.num 13600)] "start_time").isSome = true))) := by
  constructor
  · exact c10_theorem (some "abc") none 0 0
      [("per_page", ParamValue.num 1000), ("cursor", ParamValue.str "abc")] rfl
  · exact c10_theorem none none 100000 0
      [("per_page", ParamValue.num 1000), ("start_time", ParamValue.num 13600)] rfl
